import Mathlib

/-!
Shallow embedding of `src/main.py` of the `ai-msme-carousel` repository.

The program renders a carousel of fixed-size slide images from a JSON topic,
zips the output directory, composes two captions and optionally sends the
images by email.  File-system and SMTP effects are modelled by an explicit
`World` record threaded through the functions; the ambient current date
(`datetime.date.today()`) is passed in as an explicit `Date` value carrying
its `toordinal` and `isoformat` views.  Python machine behaviour that the
claims depend on is kept: `dict.get` with defaults becomes `Option.getD`,
string truthiness (`if cta:`) becomes an emptiness test, and `% 0` raising
`ZeroDivisionError` becomes an explicit error branch.
-/

/-- `OUT_BASE = "output"` (main.py line 14). -/
def OUT_BASE : String := "output"

/-- `SLIDE_SIZE = (1080, 1080)` (main.py line 15). -/
def SLIDE_SIZE : Nat × Nat := (1080, 1080)

/-- The hard-coded five-colour palette (main.py lines 16-22). -/
structure Palette where
  bg : String
  muted : String
  cream : String
  accent : String
  dark : String
  deriving Repr, DecidableEq

def PALETTE : Palette :=
  { bg := "#0F4C5C", muted := "#A7D7C5", cream := "#F7F6F2",
    accent := "#F5B041", dark := "#092A2F" }

/-- A Topic as read from `topics.json`: a JSON object whose fields are looked
up with `dict.get`, so every field is optional at the access sites. -/
structure Topic where
  title : Option String
  slides : Option (List String)
  short_caption : Option String
  long_caption : Option String
  hashtags : Option (List String)
  deriving Repr, DecidableEq

/-- Python string truthiness for an optional environment variable:
`None` and `""` are falsy, any other string is truthy. -/
def truthy : Option String → Bool
  | none => false
  | some s => s != ""

/-- A font handle as returned by `find_font`: either a TrueType face loaded
from a path at a point size, or PIL's built-in default face. -/
inductive Font where
  | truetype (path : String) (size : Nat)
  | default
  deriving Repr, DecidableEq

/-- The ordered candidate font paths probed by `find_font`
(main.py lines 25-30). -/
def font_candidates : List String :=
  [ "/usr/share/fonts/truetype/dejavu/DejaVuSans-Bold.ttf",
    "/usr/share/fonts/truetype/dejavu/DejaVuSans.ttf",
    "/usr/share/fonts/truetype/liberation/LiberationSans-Regular.ttf",
    "C:\\Windows\\Fonts\\Arial.ttf" ]

/-- The file-system environment `find_font` probes: which paths exist
(`os.path.exists`) and which of those load successfully at a given size
(`ImageFont.truetype` not raising). -/
structure FontEnv where
  pathExists : String → Bool
  loadOk : String → Nat → Bool

/-- The `for p in candidates` loop of `find_font` (main.py lines 31-37):
a path that does not exist is skipped; a path that exists but whose load
raises is caught by the `try/except` and skipped; the first path that
exists and loads is returned; after the loop the default face is returned. -/
def find_font_go (env : FontEnv) (size : Nat) : List String → Font
  | [] => Font.default
  | p :: rest =>
    if env.pathExists p then
      if env.loadOk p size then Font.truetype p size
      else find_font_go env size rest
    else find_font_go env size rest

/-- `find_font(size=40)` (main.py lines 24-37).  Total: it never raises. -/
def find_font (env : FontEnv) (size : Nat := 40) : Font :=
  find_font_go env size font_candidates

/-- The observable content of one rendered slide image, as composed by
`render_slide` (main.py lines 39-71): a `width × height` RGB canvas in the
background colour, a muted header band holding the (wrapped, centred) title,
a cream body panel holding the body text, an accent CTA badge that is drawn
only when the CTA string is truthy, and a centred footer caption. -/
structure RenderedSlide where
  width : Nat
  height : Nat
  bgFill : String
  headerFill : String
  title : String
  bodyFill : String
  body : String
  cta : String
  ctaBadgeDrawn : Bool
  footer : String
  deriving Repr, DecidableEq

/-- `render_slide(title, body, cta, slide_num, out_path)` (main.py
lines 39-71), minus the write to `out_path`, which the callers record in the
`World`.  The CTA badge (the `if cta:` block, lines 61-65) is drawn exactly
when `cta` is a truthy (non-empty) string. -/
def render_slide (title body cta : String) (slide_num : Nat) : RenderedSlide :=
  { width := SLIDE_SIZE.1
    height := SLIDE_SIZE.2
    bgFill := PALETTE.bg
    headerFill := PALETTE.muted
    title := title
    bodyFill := PALETTE.cream
    body := body
    cta := cta
    ctaBadgeDrawn := cta != ""
    footer := "AI for MSMEs • Slide " ++ toString slide_num }

/-- The ambient current date, `datetime.date.today()`, with the two views
the program takes of it. -/
structure Date where
  toordinal : Nat
  isoformat : String
  deriving Repr, DecidableEq

/-- One email message handed to `smtplib` by `send_email`. -/
structure EmailMsg where
  user : String
  recipient : String
  subject : String
  body : String
  attachments : List String
  deriving Repr, DecidableEq

/-- The file-system and network state the program acts on. -/
structure World where
  /-- `topics.json`: `none` when the file does not exist, otherwise its
  parsed content (an ordered list of Topic objects). -/
  topicsFile : Option (List Topic)
  /-- Directories created by `os.makedirs`, in creation order. -/
  createdDirs : List String
  /-- Image files written by `img.save(out_path)`, in write order. -/
  writtenImages : List (String × RenderedSlide)
  /-- Zip archives created by `shutil.make_archive`, in creation order. -/
  archives : List String
  /-- Messages actually transmitted over SMTP by `send_email`. -/
  emailsSent : List EmailMsg
  deriving Repr, DecidableEq

/-- The exceptions the program can raise. -/
inductive Err where
  | fileNotFound (msg : String)
  | jsonDecode (msg : String)
  | zeroDivision
  | envError (msg : String)
  deriving Repr, DecidableEq

/-- The `for i, s in enumerate(slides, start=1)` loop body of
`generate_carousel` (main.py lines 79-85): `i` is the 1-based index, `K` the
total slide count (`len(slides)`).  Returns the `files` list and the images
written, both in loop order. -/
def carousel_loop (topic : Topic) (outdir : String) (K : Nat) :
    List String → Nat → List String × List (String × RenderedSlide)
  | [], _ => ([], [])
  | s :: rest, i =>
    let title := if i = 1 then topic.title.getD "AI for MSMEs"
                 else "Slide " ++ toString i
    let body := s
    let cta := if i = K then "Email for template: arunksurana@gmail.com" else ""
    let out_path := outdir ++ "/slide_" ++ toString i ++ ".png"
    let img := render_slide title body cta i
    let (fs, ims) := carousel_loop topic outdir K rest (i + 1)
    (out_path :: fs, (out_path, img) :: ims)

/-- `generate_carousel(topic)` (main.py lines 73-89).  Creates the dated
output directory, renders `slide_i.png` for each slide text, archives the
directory (`shutil.make_archive` returns the base name with `.zip`
appended), and returns `(outdir, files, zip_path)`. -/
def generate_carousel (today : Date) (topic : Topic) (w : World) :
    (String × List String × String) × World :=
  let outdir := OUT_BASE ++ "/carousel_" ++ today.isoformat
  let w1 := { w with createdDirs := w.createdDirs ++ [outdir] }
  let slides := topic.slides.getD []
  let (files, images) := carousel_loop topic outdir slides.length slides 1
  let w2 := { w1 with writtenImages := w1.writtenImages ++ images }
  let zip_path := outdir ++ ".zip"
  let w3 := { w2 with archives := w2.archives ++ [zip_path] }
  ((outdir, files, zip_path), w3)

/-- `load_topics(path="topics.json")` (main.py lines 91-100): raises
`FileNotFoundError` when the file does not exist, otherwise parses it. -/
def load_topics (w : World) : Except Err (List Topic) :=
  match w.topicsFile with
  | none => Except.error (Err.fileNotFound "topics.json missing.")
  | some ts => Except.ok ts

/-- `compose_captions(topic)` (main.py lines 102-105): the LinkedIn (long)
caption concatenates `title` (default `""`), `long_caption` (default `""`)
and the space-joined hashtags; the Instagram (short) caption concatenates
`short_caption` — defaulting to the title — and the hashtags. -/
def compose_captions (topic : Topic) : String × String :=
  let li := topic.title.getD "" ++ "\n\n" ++ topic.long_caption.getD ""
      ++ "\n\n" ++ String.intercalate " " (topic.hashtags.getD [])
  let insta := topic.short_caption.getD (topic.title.getD "")
      ++ "\n\n" ++ String.intercalate " " (topic.hashtags.getD [])
  (li, insta)

/-- `send_email(user, app_password, recipient, subject, body_text,
attachments)` (main.py lines 107-119): builds one message and transmits it
over one SMTP session.  Modelled as recording the transmitted message. -/
def send_email (user _app_password recipient subject body_text : String)
    (attachments : List String) (w : World) : World :=
  { w with emailsSent := w.emailsSent ++
      [{ user := user, recipient := recipient, subject := subject,
         body := body_text, attachments := attachments }] }

/-- The three environment variables consulted when `--send-email` is set
(main.py lines 132-134); `none` models an unset variable. -/
structure EnvVars where
  GMAIL_USER : Option String
  GMAIL_APP_PASSWORD : Option String
  RECIPIENT : Option String
  deriving Repr, DecidableEq

/-- The observable outcome of a successful `main` run: the topic index
selected, what `generate_carousel` returned, and the two captions logged. -/
structure RunResult where
  idx : Nat
  outdir : String
  files : List String
  zip_path : String
  li_caption : String
  insta_caption : String
  deriving Repr, DecidableEq

/-- `main(send_email_flag=False)` (main.py lines 121-141).  Loads the
topics, selects `today.toordinal() % len(topics)` (raising
`ZeroDivisionError` when the list is empty, as Python's `%` does), generates
the carousel, composes captions, and — only when the flag is set — checks
the three environment variables for truthiness before calling `send_email`,
raising `EnvironmentError` when any is missing. -/
def main_run (today : Date) (env : EnvVars) (send_email_flag : Bool) (w : World) :
    Except Err RunResult × World :=
  match load_topics w with
  | Except.error e => (Except.error e, w)
  | Except.ok topics =>
    if h0 : topics.length = 0 then (Except.error Err.zeroDivision, w)
    else
      let idx := today.toordinal % topics.length
      let topic := topics.get ⟨idx, Nat.mod_lt _ (Nat.pos_of_ne_zero h0)⟩
      let ((outdir, files, zip_path), w1) := generate_carousel today topic w
      let (li_caption, insta_caption) := compose_captions topic
      let res : RunResult :=
        { idx := idx, outdir := outdir, files := files, zip_path := zip_path,
          li_caption := li_caption, insta_caption := insta_caption }
      if send_email_flag then
        if truthy env.GMAIL_USER && truthy env.GMAIL_APP_PASSWORD
            && truthy env.RECIPIENT then
          let user := (env.GMAIL_USER).getD ""
          let app_password := (env.GMAIL_APP_PASSWORD).getD ""
          let recipient := (env.RECIPIENT).getD ""
          let subject := "Carousel: " ++ topic.title.getD "AI for MSMEs"
              ++ " (" ++ today.isoformat ++ ")"
          let body := insta_caption ++ "\n\n(Images attached)"
          let w2 := send_email user app_password recipient subject body files w1
          (Except.ok res, w2)
        else (Except.error (Err.envError "Missing email env vars."), w1)
      else (Except.ok res, w1)

/-- The `if __name__ == "__main__"` block (main.py lines 143-151): any
exception escaping `main` is logged and the process exits with status 1;
otherwise it exits with status 0.  Returns the exit status and final world. -/
def main_entry (today : Date) (env : EnvVars) (send_email_flag : Bool)
    (w : World) : Nat × World :=
  match main_run today env send_email_flag w with
  | (Except.ok _, w2) => (0, w2)
  | (Except.error _, w2) => (1, w2)

/-! ## Characterisation of the generation loop -/

/-- Closed form of `carousel_loop`: starting the 1-based counter at `i`, the
loop produces the file paths `slide_i.png … slide_(i+n-1).png` in order, and
one rendered image per slide text, whose title/cta arguments are the ones
chosen in the loop body. -/
theorem carousel_loop_eq (topic : Topic) (outdir : String) (K : Nat)
    (slides : List String) (i : Nat) :
    carousel_loop topic outdir K slides i =
      ((List.range' i slides.length).map
         (fun j => outdir ++ "/slide_" ++ toString j ++ ".png"),
       ((List.range' i slides.length).zip slides).map
         (fun p => (outdir ++ "/slide_" ++ toString p.1 ++ ".png",
            render_slide
              (if p.1 = 1 then topic.title.getD "AI for MSMEs"
               else "Slide " ++ toString p.1)
              p.2
              (if p.1 = K then "Email for template: arunksurana@gmail.com"
               else "")
              p.1))) := by
  induction slides generalizing i with
  | nil => simp [carousel_loop]
  | cons s rest ih =>
    simp only [carousel_loop, ih, List.length_cons, List.range'_succ,
      List.map_cons, List.zip_cons_cons]

/-! ## Concrete inputs used by the witnesses -/

/-- The example topic of spec §8: `{"title":"T","slides":["a","b","c"]}`. -/
def exTopic : Topic :=
  { title := some "T", slides := some ["a", "b", "c"],
    short_caption := none, long_caption := none, hashtags := none }

/-- A fixed run date. -/
def d0 : Date := { toordinal := 739252, isoformat := "2025-01-01" }

/-- A pristine world: `topics.json` holds one topic, nothing written yet. -/
def w0 : World :=
  { topicsFile := some [exTopic], createdDirs := [], writtenImages := [],
    archives := [], emailsSent := [] }

/-! ## Claims -/

/-- C1: for every topic whose slide list has `K` entries, `generate_carousel`
renders and returns exactly `K` file paths, named `slide_1.png` through
`slide_K.png` in strictly increasing slide-index order (the returned list is
the image of the ordered index range `1 … K`), and every image written by
the call is exactly 1080 × 1080 pixels. -/
theorem C1_generate_carousel_files_and_sizes
    (today : Date) (topic : Topic) (w : World) (K : Nat)
    (hK : (topic.slides.getD []).length = K) :
    (generate_carousel today topic w).1.2.1 =
      (List.range' 1 K).map (fun i =>
        OUT_BASE ++ "/carousel_" ++ today.isoformat
          ++ "/slide_" ++ toString i ++ ".png") ∧
    (generate_carousel today topic w).1.2.1.length = K ∧
    ∃ imgs, (generate_carousel today topic w).2.writtenImages
        = w.writtenImages ++ imgs ∧
      imgs.length = K ∧
      ∀ pr ∈ imgs, pr.2.width = 1080 ∧ pr.2.height = 1080 := by
  subst hK
  simp only [generate_carousel, carousel_loop_eq]
  refine ⟨by simp, by simp, _, rfl, by simp, ?_⟩
  intro pr hpr
  simp only [List.mem_map] at hpr
  obtain ⟨p, _, rfl⟩ := hpr
  exact ⟨rfl, rfl⟩

/-- Witness for C1 at the spec §8 example topic. -/
theorem C1_witness :
    (exTopic.slides.getD []).length = 3 ∧
    ((generate_carousel d0 exTopic w0).1.2.1 =
      (List.range' 1 3).map (fun i =>
        OUT_BASE ++ "/carousel_" ++ d0.isoformat
          ++ "/slide_" ++ toString i ++ ".png") ∧
    (generate_carousel d0 exTopic w0).1.2.1.length = 3 ∧
    ∃ imgs, (generate_carousel d0 exTopic w0).2.writtenImages
        = w0.writtenImages ++ imgs ∧
      imgs.length = 3 ∧
      ∀ pr ∈ imgs, pr.2.width = 1080 ∧ pr.2.height = 1080) :=
  ⟨rfl, C1_generate_carousel_files_and_sizes d0 exTopic w0 3 rfl⟩

/-- C2: for every topic with at least one slide, the generator passes a
non-empty CTA string exactly when the 1-based slide index equals the slide
count (recorded in the `cta` field of the written image), and `render_slide`
draws the CTA badge exactly when its CTA string is non-empty. -/
theorem C2_cta_only_last_slide
    (today : Date) (topic : Topic) (w : World) (K : Nat)
    (hK : (topic.slides.getD []).length = K) (hpos : 1 ≤ K) :
    (∀ t b c n, ((render_slide t b c n).ctaBadgeDrawn = true ↔ c ≠ "")) ∧
    ∃ imgs, (generate_carousel today topic w).2.writtenImages
        = w.writtenImages ++ imgs ∧
      imgs.length = K ∧
      ∀ (j : Nat) (hj : j < imgs.length),
        ((imgs[j]).2.cta ≠ "" ↔ j + 1 = K) := by
  subst hK
  refine ⟨fun t b c n => by simp [render_slide], ?_⟩
  simp only [generate_carousel, carousel_loop_eq]
  refine ⟨_, rfl, by simp, ?_⟩
  intro j hj
  simp only [List.length_map, List.length_zip, List.length_range',
    Nat.min_self] at hj
  simp only [List.getElem_map, List.getElem_zip, List.getElem_range',
    one_mul, render_slide]
  rcases eq_or_ne (1 + j) ((topic.slides.getD []).length) with h | h
  · rw [if_pos h]
    constructor
    · intro _; omega
    · intro _; decide
  · rw [if_neg h]
    constructor
    · intro hc; exact absurd rfl hc
    · intro hc; omega

/-- Witness for C2 at the spec §8 example topic. -/
theorem C2_witness :
    (exTopic.slides.getD []).length = 3 ∧ 1 ≤ 3 ∧
    ((∀ t b c n, ((render_slide t b c n).ctaBadgeDrawn = true ↔ c ≠ "")) ∧
    ∃ imgs, (generate_carousel d0 exTopic w0).2.writtenImages
        = w0.writtenImages ++ imgs ∧
      imgs.length = 3 ∧
      ∀ (j : Nat) (hj : j < imgs.length),
        ((imgs[j]).2.cta ≠ "" ↔ j + 1 = 3)) :=
  ⟨rfl, by decide, C2_cta_only_last_slide d0 exTopic w0 3 rfl (by decide)⟩

/-- C3: for a topic with `K ≥ 1` slide texts whose title field is present,
the title passed to the renderer for slide 1 is the topic's title, and the
title passed for slide `i` (`2 ≤ i ≤ K`, i.e. `i = j + 1` with `j ≥ 1`) is
the generated string `"Slide i"`. -/
theorem C3_slide_titles
    (today : Date) (topic : Topic) (w : World) (K : Nat) (ttl : String)
    (hK : (topic.slides.getD []).length = K) (hpos : 1 ≤ K)
    (htitle : topic.title = some ttl) :
    ∃ imgs, (generate_carousel today topic w).2.writtenImages
        = w.writtenImages ++ imgs ∧
      imgs.length = K ∧
      (∀ (h0 : 0 < imgs.length), (imgs[0]).2.title = ttl) ∧
      (∀ (j : Nat) (hj : j < imgs.length), 1 ≤ j →
        (imgs[j]).2.title = "Slide " ++ toString (j + 1)) := by
  subst hK
  simp only [generate_carousel, carousel_loop_eq]
  refine ⟨_, rfl, by simp, ?_, ?_⟩
  · intro h0
    simp only [List.getElem_map, List.getElem_zip, List.getElem_range']
    simp [render_slide, htitle]
  · intro j hj hj1
    have h1 : ¬ (1 + j = 1) := by omega
    simp only [List.getElem_map, List.getElem_zip, List.getElem_range',
      one_mul, render_slide]
    rw [if_neg h1, Nat.add_comm 1 j]

/-- Witness for C3 at the spec §8 example topic. -/
theorem C3_witness :
    (exTopic.slides.getD []).length = 3 ∧ 1 ≤ 3 ∧ exTopic.title = some "T" ∧
    (∃ imgs, (generate_carousel d0 exTopic w0).2.writtenImages
        = w0.writtenImages ++ imgs ∧
      imgs.length = 3 ∧
      (∀ (h0 : 0 < imgs.length), (imgs[0]).2.title = "T") ∧
      (∀ (j : Nat) (hj : j < imgs.length), 1 ≤ j →
        (imgs[j]).2.title = "Slide " ++ toString (j + 1))) :=
  ⟨rfl, by decide, rfl,
    C3_slide_titles d0 exTopic w0 3 "T" rfl (by decide) rfl⟩

/-- More concrete inputs for witnesses and counterexamples. -/
def envEmpty : EnvVars :=
  { GMAIL_USER := none, GMAIL_APP_PASSWORD := none, RECIPIENT := none }

/-- A world in which `topics.json` does not exist. -/
def wNoFile : World :=
  { topicsFile := none, createdDirs := [], writtenImages := [],
    archives := [], emailsSent := [] }

/-- A world in which `topics.json` exists and holds the empty list. -/
def wEmptyTopics : World :=
  { topicsFile := some [], createdDirs := [], writtenImages := [],
    archives := [], emailsSent := [] }

/-- A topic without a `slides` field. -/
def exTopicNoSlides : Topic :=
  { title := some "T", slides := none, short_caption := none,
    long_caption := none, hashtags := none }

/-- C4 as stated is false on the code: with the `long_caption` field absent,
`compose_captions` uses the empty string — not the title — as the fallback in
the long-form caption.  On a topic with title `"T"`, no long caption and no
hashtags, the composed captions differ from the ones obtained by substituting
the title for the absent long-caption field. -/
theorem C4_counterexample :
    compose_captions
      { title := some "T", slides := none, short_caption := none,
        long_caption := none, hashtags := none } ≠
    compose_captions
      { title := some "T", slides := none, short_caption := none,
        long_caption := some "T", hashtags := none } := by
  decide

/-- C4 amended, as two independent statements over every topic: whenever the
`short_caption` field is absent it falls back to the topic title in the
short-form caption (substituting the title for the field leaves the output
unchanged), and whenever the `long_caption` field is absent it falls back to
the empty string in the long-form caption (the title is always its own
leading component). -/
theorem C4_caption_fallback_amended (t : Topic) :
    (t.short_caption = none →
      compose_captions t
        = compose_captions
            { t with short_caption := some (t.title.getD "") }) ∧
    (t.long_caption = none →
      compose_captions t
        = compose_captions { t with long_caption := some "" }) := by
  constructor
  · intro hs
    simp [compose_captions, hs]
  · intro hl
    simp [compose_captions, hl]

/-- Witness for the amended C4, discharging each hypothesis separately. -/
theorem C4_witness :
    exTopic.short_caption = none ∧ exTopic.long_caption = none ∧
    (compose_captions exTopic
      = compose_captions
          { exTopic with short_caption := some (exTopic.title.getD "") } ∧
    compose_captions exTopic
      = compose_captions { exTopic with long_caption := some "" }) :=
  ⟨rfl, rfl,
    (C4_caption_fallback_amended exTopic).1 rfl,
    (C4_caption_fallback_amended exTopic).2 rfl⟩

/-- The topic index a finished run selected, when it succeeded. -/
def run_idx : Except Err RunResult → Option Nat
  | Except.ok r => some r.idx
  | Except.error _ => none

/-- C5: for a non-empty topic list, the run succeeds in selecting a topic,
the selected index is the date's day ordinal modulo the topic count, and two
runs on the same date over the same topic list (whatever else differs in
their worlds or environments) select the same index. -/
theorem C5_topic_selection_deterministic
    (today : Date) (env1 env2 : EnvVars) (w1 w2 : World)
    (topics : List Topic)
    (h1 : w1.topicsFile = some topics) (h2 : w2.topicsFile = some topics)
    (hne : topics ≠ []) :
    run_idx (main_run today env1 false w1).1
      = some (today.toordinal % topics.length) ∧
    run_idx (main_run today env2 false w2).1
      = run_idx (main_run today env1 false w1).1 := by
  have hlen : ¬ topics.length = 0 := by
    simpa [List.length_eq_zero] using hne
  constructor <;>
    simp [main_run, load_topics, h1, h2, hlen, generate_carousel,
      compose_captions, run_idx]

/-- Witness for C5. -/
theorem C5_witness :
    w0.topicsFile = some [exTopic] ∧ ([exTopic] : List Topic) ≠ [] ∧
    (run_idx (main_run d0 envEmpty false w0).1
      = some (d0.toordinal % ([exTopic] : List Topic).length) ∧
    run_idx (main_run d0 envEmpty false w0).1
      = run_idx (main_run d0 envEmpty false w0).1) :=
  ⟨rfl, by decide,
    C5_topic_selection_deterministic d0 envEmpty envEmpty w0 w0 [exTopic]
      rfl rfl (by decide)⟩

/-- C6: when `topics.json` does not exist, the run raises `FileNotFoundError`
with the world untouched — in particular before creating any output
directory or writing any image — and the process exits with status 1. -/
theorem C6_missing_topics_file
    (today : Date) (env : EnvVars) (flag : Bool) (w : World)
    (h : w.topicsFile = none) :
    main_run today env flag w
      = (Except.error (Err.fileNotFound "topics.json missing."), w) ∧
    main_entry today env flag w = (1, w) := by
  constructor <;> simp [main_entry, main_run, load_topics, h]

/-- Witness for C6. -/
theorem C6_witness :
    wNoFile.topicsFile = none ∧
    (main_run d0 envEmpty true wNoFile
      = (Except.error (Err.fileNotFound "topics.json missing."), wNoFile) ∧
    main_entry d0 envEmpty true wNoFile = (1, wNoFile)) :=
  ⟨rfl, C6_missing_topics_file d0 envEmpty true wNoFile rfl⟩

/-- C7: when email delivery is requested and at least one of the three email
environment variables is unset, the run raises `EnvironmentError` and the
email sender is never invoked: no SMTP message is transmitted. -/
theorem C7_missing_email_env
    (today : Date) (env : EnvVars) (w : World) (topics : List Topic)
    (h : w.topicsFile = some topics) (hne : topics ≠ [])
    (hmiss : env.GMAIL_USER = none ∨ env.GMAIL_APP_PASSWORD = none ∨
      env.RECIPIENT = none) :
    (main_run today env true w).1
      = Except.error (Err.envError "Missing email env vars.") ∧
    (main_run today env true w).2.emailsSent = w.emailsSent := by
  have hlen : ¬ topics.length = 0 := by
    simpa [List.length_eq_zero] using hne
  have hcond : (truthy env.GMAIL_USER && truthy env.GMAIL_APP_PASSWORD
      && truthy env.RECIPIENT) = false := by
    rcases hmiss with hm | hm | hm <;> simp [truthy, hm]
  constructor <;>
    simp [main_run, load_topics, h, hlen, generate_carousel,
      compose_captions, hcond]

/-- Witness for C7: all three variables unset. -/
theorem C7_witness :
    w0.topicsFile = some [exTopic] ∧ ([exTopic] : List Topic) ≠ [] ∧
    (envEmpty.GMAIL_USER = none ∨ envEmpty.GMAIL_APP_PASSWORD = none ∨
      envEmpty.RECIPIENT = none) ∧
    ((main_run d0 envEmpty true w0).1
      = Except.error (Err.envError "Missing email env vars.") ∧
    (main_run d0 envEmpty true w0).2.emailsSent = w0.emailsSent) :=
  ⟨rfl, by decide, Or.inl rfl,
    C7_missing_email_env d0 envEmpty w0 [exTopic] rfl (by decide)
      (Or.inl rfl)⟩

/-- C8: font resolution is total (it returns a font for every environment
and size, never raising) and returns the TrueType face of the first
candidate path that both exists and loads at the requested size, falling
back to the built-in default face when no candidate does. -/
theorem C8_find_font_first_loadable (env : FontEnv) (size : Nat) :
    find_font env size =
      match font_candidates.find?
          (fun p => env.pathExists p && env.loadOk p size) with
      | some p => Font.truetype p size
      | none => Font.default := by
  show find_font_go env size font_candidates = _
  induction font_candidates with
  | nil => rfl
  | cons p rest ih =>
    by_cases he : env.pathExists p
    · by_cases hl : env.loadOk p size
      · simp [find_font_go, List.find?, he, hl]
      · simp [find_font_go, List.find?, he, hl, ih]
    · simp [find_font_go, List.find?, he, ih]

/-- C9: for a topic whose slide list is empty or absent, `generate_carousel`
writes no image file, yet still creates the dated output directory and its
zip archive, and returns the directory, an empty file list and the archive
path. -/
theorem C9_empty_slides (today : Date) (t : Topic) (w : World)
    (h : t.slides.getD [] = []) :
    generate_carousel today t w
      = ((OUT_BASE ++ "/carousel_" ++ today.isoformat, [],
          OUT_BASE ++ "/carousel_" ++ today.isoformat ++ ".zip"),
         { w with
            createdDirs := w.createdDirs
              ++ [OUT_BASE ++ "/carousel_" ++ today.isoformat],
            archives := w.archives
              ++ [OUT_BASE ++ "/carousel_" ++ today.isoformat ++ ".zip"] }) := by
  simp [generate_carousel, h, carousel_loop]

/-- Witness for C9 on a topic without a `slides` field. -/
theorem C9_witness :
    exTopicNoSlides.slides.getD [] = [] ∧
    generate_carousel d0 exTopicNoSlides wNoFile
      = ((OUT_BASE ++ "/carousel_" ++ d0.isoformat, [],
          OUT_BASE ++ "/carousel_" ++ d0.isoformat ++ ".zip"),
         { wNoFile with
            createdDirs := wNoFile.createdDirs
              ++ [OUT_BASE ++ "/carousel_" ++ d0.isoformat],
            archives := wNoFile.archives
              ++ [OUT_BASE ++ "/carousel_" ++ d0.isoformat ++ ".zip"] }) :=
  ⟨rfl, C9_empty_slides d0 exTopicNoSlides wNoFile rfl⟩

/-- C10 (implicit): when the loaded topic list is empty, the run fails at
topic selection with a `ZeroDivisionError` (`% len(topics)` with a zero
count), touching nothing in the world, and the process exits with status 1 —
so successful selection presupposes a non-empty topic list. -/
theorem C10_empty_topics_zero_division
    (today : Date) (env : EnvVars) (flag : Bool) (w : World)
    (h : w.topicsFile = some []) :
    main_run today env flag w = (Except.error Err.zeroDivision, w) ∧
    main_entry today env flag w = (1, w) := by
  constructor <;> simp [main_entry, main_run, load_topics, h]

/-- Witness for C10. -/
theorem C10_witness :
    wEmptyTopics.topicsFile = some [] ∧
    (main_run d0 envEmpty false wEmptyTopics
      = (Except.error Err.zeroDivision, wEmptyTopics) ∧
    main_entry d0 envEmpty false wEmptyTopics = (1, wEmptyTopics)) :=
  ⟨rfl, C10_empty_topics_zero_division d0 envEmpty false wEmptyTopics rfl⟩
